import Mathlib

/-!
Verification of the override-resolution and template-execution pipeline of
`lwe/core/backend.py` (llm-workflow-engine).

The embedding models Python values appearing in override payloads as the
inductive `Value`, Python dicts as association lists with unique-key lookup
semantics, and the mutable fields of a `Backend` instance as the record
`BackendState`.  Collaborators that live outside `lwe/core/backend.py`
(template storage, the concrete provider backend) are parameters, bundled in
`BackendImpl`.
-/

set_option autoImplicit false

namespace LWE

/-- A Python value as it can occur inside an override payload: `None`, a
bool, a string, a number, or a nested dict. -/
inductive Value where
  | none
  | bool (b : Bool)
  | str (s : String)
  | nat (n : Nat)
  | dict (entries : List (String × Value))

/-- A Python dict with string keys, as an association list in insertion
order.  Python dicts have unique keys; lookup returns the first match. -/
abbrev Dict := List (String × Value)

/-- Python `d[k]` / `k in d` lookup: the value stored under `k`, if any. -/
def dict_get : Dict → String → Option Value
  | [], _ => Option.none
  | (k, v) :: rest, key => if k = key then some v else dict_get rest key

/-- Python `k in d` membership test on a dict. -/
def dict_contains (d : Dict) (key : String) : Bool :=
  (dict_get d key).isSome

/-- Python truthiness (`if x:`) for the modelled values:
`None`, `False`, `""`, `0` and the empty dict are falsy. -/
def truthy : Value → Bool
  | Value.none => false
  | Value.bool b => b
  | Value.str s => !s.isEmpty
  | Value.nat n => !n.beq 0
  | Value.dict d => !d.isEmpty

mutual

/-- Python `repr` of a modelled value, used by the f-string user messages. -/
def pyRepr : Value → String
  | Value.none => "None"
  | Value.bool true => "True"
  | Value.bool false => "False"
  | Value.str s => "\x27" ++ s ++ "\x27"
  | Value.nat n => toString n
  | Value.dict entries => "\x7b" ++ pyReprEntries entries ++ "\x7d"

/-- Python `repr` of the entries of a dict, comma separated. -/
def pyReprEntries : List (String × Value) → String
  | [] => ""
  | [(k, v)] => "\x27" ++ k ++ "\x27: " ++ pyRepr v
  | (k, v) :: rest => "\x27" ++ k ++ "\x27: " ++ pyRepr v ++ ", " ++ pyReprEntries rest

end

/-- The mutable fields of a `Backend` instance that the modelled operations
read or write (`__init__` and `initialize_backend` set the conversation
fields, `stream` and `streaming`; `active_preset_name` is session state per
spec §3).  `activation_log` and `ask_log` are ghost fields recording the
preset-activation side effects and the ask dispatches, so that frame and
dispatch properties are observable. -/
structure BackendState where
  conversation_id : Value
  conversation_title : Value
  conversation_title_set : Value
  message_clipboard : Value
  stream : Bool
  streaming : Bool
  active_preset_name : Value
  activation_log : List Value
  ask_log : List (String × Dict)

/-- Method `new_conversation` (backend.py lines 73-81): resets all attributes
related to a conversation. -/
def new_conversation (st : BackendState) : BackendState :=
  { st with
    conversation_id := Value.none
    conversation_title := Value.none
    conversation_title_set := Value.none
    message_clipboard := Value.none }

/-- Modelled from the spec: `activate_preset` is implemented in the API
backend, not under `lwe/core/backend.py` (the source itself notes this in a
TODO).  Per spec §4.2 step 2 it permanently changes the backend's standing
active preset.  The call is also recorded in the ghost `activation_log` so
that the side effect is observable. -/
def activate_preset (st : BackendState) (preset_name : Value) : BackendState :=
  { st with
    active_preset_name := preset_name
    activation_log := st.activation_log ++ [preset_name] }

/-- The result of `extract_preset_configuration_from_overrides`: the Python
return value `(success, (preset_name, preset_overrides, overrides), user_message)`. -/
structure ExtractResult where
  success : Bool
  preset_name : Value
  preset_overrides : Value
  overrides : Dict
  user_message : String

/-- The f-string success message of the resolver. -/
def extract_success_message (overrides : Dict) : String :=
  "Extracted preset configuration from request overrides: " ++ pyRepr (Value.dict overrides)

/-- Method `extract_preset_configuration_from_overrides` (backend.py lines 102-127),
threaded through the backend state to account for the `activate_preset`
side effect.  The data model (spec §3, §6) types `request_overrides` as a
mapping; a present non-mapping value is outside the modelled domain (the
Python code would raise a `TypeError` on it) and is treated like an absent
key here. -/
def extract_preset_configuration_from_overrides (st : BackendState) (overrides : Dict) :
    BackendState × ExtractResult :=
  match dict_get overrides "request_overrides" with
  | some (Value.dict ro) =>
    if dict_contains ro "preset" || dict_contains ro "preset_overrides" then
      let stName : BackendState × Value :=
        if dict_contains ro "preset" then
          let pn := (dict_get ro "preset").getD Value.none
          if dict_contains ro "activate_preset" && truthy ((dict_get ro "activate_preset").getD Value.none) then
            (activate_preset st pn, pn)
          else
            (st, pn)
        else
          (st, st.active_preset_name)
      let st1 := stName.1
      let preset_name := stName.2
      if truthy preset_name then
        let preset_overrides :=
          if dict_contains ro "preset_overrides" then
            (dict_get ro "preset_overrides").getD Value.none
          else
            Value.none
        (st1, ⟨true, preset_name, preset_overrides, overrides, extract_success_message overrides⟩)
      else
        (st1, ⟨false, preset_name, Value.none, overrides, "No active preset to override"⟩)
    else
      (st, ⟨true, Value.none, Value.none, overrides, extract_success_message overrides⟩)
  | _ =>
    (st, ⟨true, Value.none, Value.none, overrides, extract_success_message overrides⟩)

/-- A convenient all-cleared backend state for concrete evaluations. -/
def st0 : BackendState :=
  ⟨Value.none, Value.none, Value.none, Value.none, false, false, Value.none, [], []⟩

/-- Modelled from the spec: `util.merge_dicts` lives in `lwe/core/util.py`,
which is not under `src/`.  Spec §4.3 steps 2 and 4: the right-hand
(caller) mapping's keys override same-named keys of the left-hand mapping,
and unrelated keys from both survive; the spec's example merges template
overrides a:1, b:2 with caller overrides b:3, c:4 into a:1, b:3, c:4.
Modelled with Python dict-update ordering: keys of `d1` keep their position
(taking `d2`'s value on collision), then keys only in `d2` follow in order. -/
def merge_dicts (d1 d2 : Dict) : Dict :=
  (d1.map fun kv =>
    match dict_get d2 kv.1 with
    | some v => (kv.1, v)
    | Option.none => kv) ++
  d2.filter fun kv => !dict_contains d1 kv.1

/-- A payload of the uniform `(success, payload, message)` result triple
(spec §3 "Result").  Python is dynamically typed here: the payload is an
opaque value for collaborator results, and one of the tuple shapes built by
`run_template_setup` otherwise. -/
inductive Payload where
  | value (v : Value)
  | setupTriple (message : String) (preset_name : Value) (overrides : Dict)

/-- Result of `template_manager.get_template_variables_substitutions`: on
success the payload is the `(template, variables, substitutions)` triple
(spec §4.3 step 1); on failure an arbitrary payload propagated verbatim. -/
inductive TvsResult where
  | ok (template vars : Value) (substitutions : Dict) (user_message : String)
  | err (payload : Payload) (user_message : String)

/-- Result of `run_template_setup`: on success the payload is the
`(message, overrides)` pair (backend.py line 151); on failure the failing
stage's payload. -/
inductive SetupResult where
  | ok (message : String) (overrides : Dict) (user_message : String)
  | err (payload : Payload) (user_message : String)

/-- The external collaborators of the pipeline: template storage
(`template_manager`, spec §1 out-of-scope, accessed through its two calls)
and the capabilities of the concrete provider backend (`set_override_llm`
and the non-streaming `ask` of the Backend Contract, spec §4.4). `ask` is
threaded through the backend state; `set_override_llm` constructs a handle
and does not touch the modelled state fields. -/
structure BackendImpl where
  get_template_variables_substitutions : String → TvsResult
  build_message_from_template : String → Dict → String × Dict
  set_override_llm : Value → Value → Bool × Payload × String
  ask : BackendState → String → Dict → BackendState × (Bool × Payload × String)

/-- Modelled from the spec: `_ask` is implemented in the API backend, not
under `lwe/core/backend.py`.  Per spec §4.3 step 5 it dispatches to the
non-streaming ask capability of the Backend Contract with the final
overrides spread as request parameters and returns its result unchanged.
The dispatch is recorded in the ghost `ask_log` before the call so that
dispatches are observable. -/
def ask_dispatch (impl : BackendImpl) (st : BackendState) (message : String)
    (overrides : Dict) : BackendState × (Bool × Payload × String) :=
  impl.ask { st with ask_log := st.ask_log ++ [(message, overrides)] } message overrides

/-- Method `run_template_setup` (backend.py lines 129-151). -/
def run_template_setup (impl : BackendImpl) (st : BackendState) (template_name : String)
    (substitutions : Option Dict) : BackendState × SetupResult :=
  let subs := substitutions.getD []
  let mo := impl.build_message_from_template template_name subs
  let message := mo.1
  let overrides := mo.2
  let str := extract_preset_configuration_from_overrides st overrides
  let st1 := str.1
  let r := str.2
  if r.success then
    if truthy r.preset_name then
      match impl.set_override_llm r.preset_name r.preset_overrides with
      | (true, _llm, _user_message) =>
        (st1, SetupResult.ok message r.overrides ("Set up of template run complete: " ++ template_name))
      | (false, llm, user_message) =>
        (st1, SetupResult.err llm user_message)
    else
      (st1, SetupResult.ok message r.overrides ("Set up of template run complete: " ++ template_name))
  else
    (st1, SetupResult.err (Payload.setupTriple message Value.none overrides) r.user_message)

/-- Method `run_template_compiled` (backend.py lines 153-164): delegates to `_ask`
with the overrides spread as request parameters. -/
def run_template_compiled (impl : BackendImpl) (st : BackendState) (message : String)
    (overrides : Option Dict) : BackendState × (Bool × Payload × String) :=
  ask_dispatch impl st message (overrides.getD [])

/-- Method `run_template` (backend.py lines 166-188). -/
def run_template (impl : BackendImpl) (st : BackendState) (template_name : String)
    (template_vars : Option Dict) (overrides : Option Dict) :
    BackendState × (Bool × Payload × String) :=
  let tv := template_vars.getD []
  let ov := overrides.getD []
  match impl.get_template_variables_substitutions template_name with
  | TvsResult.err payload user_message => (st, (false, payload, user_message))
  | TvsResult.ok _template _variables substitutions _user_message =>
    let substitutions := merge_dicts substitutions tv
    match run_template_setup impl st template_name (some substitutions) with
    | (st1, SetupResult.err payload user_message) => (st1, (false, payload, user_message))
    | (st1, SetupResult.ok message template_overrides _user_message2) =>
      let template_overrides := merge_dicts template_overrides ov
      run_template_compiled impl st1 message (some template_overrides)

/-- The condition under which the resolver reaches the `activate_preset`
call (backend.py lines 113-120): an explicit `preset` key together with a
present, truthy `activate_preset` flag. -/
def resolver_activates (overrides : Dict) : Bool :=
  match dict_get overrides "request_overrides" with
  | some (Value.dict ro) =>
    dict_contains ro "preset" &&
      (dict_contains ro "activate_preset" && truthy ((dict_get ro "activate_preset").getD Value.none))
  | _ => false

/-- The value of the explicit `preset` key of a payload, `None` when absent. -/
def explicit_preset (overrides : Dict) : Value :=
  match dict_get overrides "request_overrides" with
  | some (Value.dict ro) => (dict_get ro "preset").getD Value.none
  | _ => Value.none

/-- A concrete backend whose template storage reports a lookup failure. -/
def implFail : BackendImpl where
  get_template_variables_substitutions := fun _ =>
    TvsResult.err (Payload.value (Value.str "boom")) "missing template"
  build_message_from_template := fun _ _ => ("", [])
  set_override_llm := fun _ _ => (true, Payload.value Value.none, "")
  ask := fun s _ _ => (s, (true, Payload.value Value.none, ""))

/-- A concrete backend whose template storage succeeds. -/
def implOk : BackendImpl where
  get_template_variables_substitutions := fun _ =>
    TvsResult.ok Value.none Value.none [] "template loaded"
  build_message_from_template := fun _ _ => ("Hello, Ada", [])
  set_override_llm := fun _ _ => (true, Payload.value Value.none, "")
  ask := fun s _ _ => (s, (true, Payload.value (Value.str "response"), "done"))

lemma extract_state_eq (st : BackendState) (overrides : Dict) :
    (extract_preset_configuration_from_overrides st overrides).1 =
      if resolver_activates overrides then activate_preset st (explicit_preset overrides)
      else st := by
  unfold extract_preset_configuration_from_overrides resolver_activates explicit_preset
  cases h : dict_get overrides "request_overrides" with
  | none => simp
  | some v =>
    cases v with
    | none => simp
    | bool b => simp
    | str s => simp
    | nat n => simp
    | dict ro =>
      by_cases hp : dict_contains ro "preset" <;>
        by_cases hact : dict_contains ro "activate_preset" &&
          truthy ((dict_get ro "activate_preset").getD Value.none) <;>
        by_cases hpo : dict_contains ro "preset_overrides" <;>
        simp [hp, hact, hpo] <;>
        split <;> simp

@[simp]
lemma extract_ask_log (st : BackendState) (overrides : Dict) :
    (extract_preset_configuration_from_overrides st overrides).1.ask_log = st.ask_log := by
  rw [extract_state_eq]
  split <;> rfl

lemma run_template_setup_ask_log (impl : BackendImpl) (st : BackendState)
    (template_name : String) (substitutions : Option Dict) :
    (run_template_setup impl st template_name substitutions).1.ask_log = st.ask_log := by
  unfold run_template_setup
  dsimp only
  generalize hE : extract_preset_configuration_from_overrides st
    (impl.build_message_from_template template_name (substitutions.getD [])).2 = e
  have h1 : e.1.ask_log = st.ask_log := by
    rw [← hE]
    exact extract_ask_log st _
  obtain ⟨st1, r⟩ := e
  split <;> (try split) <;> (try split) <;> simpa using h1

lemma dict_get_append (l1 l2 : Dict) (k : String) :
    dict_get (l1 ++ l2) k =
      match dict_get l1 k with
      | some v => some v
      | Option.none => dict_get l2 k := by
  induction l1 with
  | nil => rfl
  | cons kv rest ih =>
    obtain ⟨a, b⟩ := kv
    by_cases h : a = k <;> simp [dict_get, h, ih]

lemma dict_get_map_merge (d1 d2 : Dict) (k : String) :
    dict_get (d1.map fun kv =>
        match dict_get d2 kv.1 with
        | some v => (kv.1, v)
        | Option.none => kv) k =
      match dict_get d1 k with
      | some v1 => some ((dict_get d2 k).getD v1)
      | Option.none => Option.none := by
  induction d1 with
  | nil => rfl
  | cons kv rest ih =>
    obtain ⟨a, b⟩ := kv
    by_cases h : a = k
    · subst h
      cases h2 : dict_get d2 a <;> simp [dict_get, h2]
    · cases h2 : dict_get d2 a <;> simp [dict_get, h, h2, ih]

lemma dict_get_filter_merge (d1 d2 : Dict) (k : String) :
    dict_get (d2.filter fun kv => !dict_contains d1 kv.1) k =
      if dict_contains d1 k then Option.none else dict_get d2 k := by
  induction d2 with
  | nil =>
    simp [dict_get]
  | cons kv rest ih =>
    obtain ⟨a, b⟩ := kv
    by_cases h : a = k
    · subst h
      by_cases hc : dict_contains d1 a <;> simp [List.filter, dict_get, hc, ih]
    · by_cases hc : dict_contains d1 a <;> simp [List.filter, dict_get, h, hc, ih]

lemma dict_get_merge_dicts (d1 d2 : Dict) (k : String) :
    dict_get (merge_dicts d1 d2) k =
      match dict_get d1 k, dict_get d2 k with
      | Option.none, v2 => v2
      | some v1, Option.none => some v1
      | some _, some v2 => some v2 := by
  unfold merge_dicts
  rw [dict_get_append, dict_get_map_merge, dict_get_filter_merge]
  cases h1 : dict_get d1 k <;> cases h2 : dict_get d2 k <;>
    simp [dict_contains, h1, h2]


/-- C1: a payload whose `request_overrides` mapping sets `preset_overrides`
but has no explicit `preset` key, while no standing active preset name is
set, makes the resolver fail with exactly "No active preset to override". -/
theorem extract_no_active_preset_fails
    (st : BackendState) (overrides ro : Dict)
    (hro : dict_get overrides "request_overrides" = some (Value.dict ro))
    (hpo : dict_contains ro "preset_overrides" = true)
    (hp : dict_contains ro "preset" = false)
    (ha : truthy st.active_preset_name = false) :
    (extract_preset_configuration_from_overrides st overrides).2.success = false ∧
    (extract_preset_configuration_from_overrides st overrides).2.user_message =
      "No active preset to override" := by
  unfold extract_preset_configuration_from_overrides
  rw [hro]
  simp [hp, hpo, ha]

theorem extract_no_active_preset_fails_witness :
    (extract_preset_configuration_from_overrides st0
      [("request_overrides", Value.dict [("preset_overrides", Value.dict [])])]).2.success = false ∧
    (extract_preset_configuration_from_overrides st0
      [("request_overrides", Value.dict [("preset_overrides", Value.dict [])])]).2.user_message =
      "No active preset to override" :=
  extract_no_active_preset_fails st0
    [("request_overrides", Value.dict [("preset_overrides", Value.dict [])])]
    [("preset_overrides", Value.dict [])] rfl rfl rfl rfl

/-- C3: with an explicit `preset` key present and a standing active preset
set, the resolver resolves the explicit key's value as the preset name,
never the standing active preset. -/
theorem extract_explicit_preset_wins
    (st : BackendState) (overrides ro : Dict) (pv : Value)
    (hro : dict_get overrides "request_overrides" = some (Value.dict ro))
    (hp : dict_get ro "preset" = some pv)
    (ha : truthy st.active_preset_name = true) :
    (extract_preset_configuration_from_overrides st overrides).2.preset_name = pv := by
  have hc : dict_contains ro "preset" = true := by simp [dict_contains, hp]
  unfold extract_preset_configuration_from_overrides
  rw [hro]
  simp [hc, hp]
  split <;> (try split) <;> simp

theorem extract_explicit_preset_wins_witness :
    (extract_preset_configuration_from_overrides
      { st0 with active_preset_name := Value.str "standing" }
      [("request_overrides", Value.dict [("preset", Value.str "explicit")])]).2.preset_name =
      Value.str "explicit" :=
  extract_explicit_preset_wins { st0 with active_preset_name := Value.str "standing" }
    [("request_overrides", Value.dict [("preset", Value.str "explicit")])]
    [("preset", Value.str "explicit")] (Value.str "explicit") rfl rfl rfl

/-- C5: a payload without a nested `request_overrides` mapping, or whose
`request_overrides` mapping has neither `preset` nor `preset_overrides`,
makes the resolver succeed with preset name `None` and preset overrides
`None`. -/
theorem extract_no_preset_work_succeeds
    (st : BackendState) (overrides : Dict)
    (h : dict_get overrides "request_overrides" = Option.none ∨
      ∃ ro, dict_get overrides "request_overrides" = some (Value.dict ro) ∧
        dict_contains ro "preset" = false ∧ dict_contains ro "preset_overrides" = false) :
    (extract_preset_configuration_from_overrides st overrides).2.success = true ∧
    (extract_preset_configuration_from_overrides st overrides).2.preset_name = Value.none ∧
    (extract_preset_configuration_from_overrides st overrides).2.preset_overrides = Value.none := by
  unfold extract_preset_configuration_from_overrides
  rcases h with h | ⟨ro, hro, hp, hpo⟩
  · rw [h]
    simp
  · rw [hro]
    simp [hp, hpo]

theorem extract_no_preset_work_succeeds_witness :
    (extract_preset_configuration_from_overrides st0 [("other", Value.nat 5)]).2.success = true ∧
    (extract_preset_configuration_from_overrides st0 [("other", Value.nat 5)]).2.preset_name =
      Value.none ∧
    (extract_preset_configuration_from_overrides st0 [("other", Value.nat 5)]).2.preset_overrides =
      Value.none :=
  extract_no_preset_work_succeeds st0 [("other", Value.nat 5)] (Or.inl rfl)

/-- C9: a payload whose `request_overrides` maps `preset` to a falsy value
while no preset is active makes the resolver fail with
"No active preset to override", even when `preset_overrides` is absent. -/
theorem extract_falsy_explicit_preset_fails
    (st : BackendState) (overrides ro : Dict) (pv : Value)
    (hro : dict_get overrides "request_overrides" = some (Value.dict ro))
    (hp : dict_get ro "preset" = some pv)
    (hf : truthy pv = false)
    (ha : truthy st.active_preset_name = false) :
    (extract_preset_configuration_from_overrides st overrides).2.success = false ∧
    (extract_preset_configuration_from_overrides st overrides).2.user_message =
      "No active preset to override" := by
  have hc : dict_contains ro "preset" = true := by simp [dict_contains, hp]
  unfold extract_preset_configuration_from_overrides
  rw [hro]
  simp [hc, hp, hf]
  split <;> simp_all

theorem extract_falsy_explicit_preset_fails_witness :
    (extract_preset_configuration_from_overrides st0
      [("request_overrides", Value.dict [("preset", Value.str "")])]).2.success = false ∧
    (extract_preset_configuration_from_overrides st0
      [("request_overrides", Value.dict [("preset", Value.str "")])]).2.user_message =
      "No active preset to override" :=
  extract_falsy_explicit_preset_fails st0
    [("request_overrides", Value.dict [("preset", Value.str "")])]
    [("preset", Value.str "")] (Value.str "") rfl rfl rfl rfl

/-- C6: an explicit `preset` key together with a truthy `activate_preset`
flag makes the resolver invoke the preset-activation side effect for that
preset name, and in every other case resolution leaves the backend state
untouched. -/
theorem extract_activation_effect (st : BackendState) (overrides : Dict) :
    (resolver_activates overrides = true →
      (extract_preset_configuration_from_overrides st overrides).1 =
        activate_preset st (explicit_preset overrides)) ∧
    (resolver_activates overrides = false →
      (extract_preset_configuration_from_overrides st overrides).1 = st) := by
  constructor <;> intro h <;> rw [extract_state_eq] <;> simp [h]

theorem extract_activation_effect_witness :
    (extract_preset_configuration_from_overrides st0
      [("request_overrides", Value.dict
        [("preset", Value.str "p"), ("activate_preset", Value.bool true)])]).1 =
      activate_preset st0 (explicit_preset
        [("request_overrides", Value.dict
          [("preset", Value.str "p"), ("activate_preset", Value.bool true)])]) :=
  (extract_activation_effect st0
    [("request_overrides", Value.dict
      [("preset", Value.str "p"), ("activate_preset", Value.bool true)])]).1 rfl

/-- C7: `new_conversation` unconditionally clears the conversation
identifier, title, title-set flag and message clipboard, and leaves the
streaming flags and all other session state unchanged. -/
theorem new_conversation_clears_conversation_state (st : BackendState) :
    (new_conversation st).conversation_id = Value.none ∧
    (new_conversation st).conversation_title = Value.none ∧
    (new_conversation st).conversation_title_set = Value.none ∧
    (new_conversation st).message_clipboard = Value.none ∧
    (new_conversation st).stream = st.stream ∧
    (new_conversation st).streaming = st.streaming ∧
    (new_conversation st).active_preset_name = st.active_preset_name ∧
    (new_conversation st).activation_log = st.activation_log ∧
    (new_conversation st).ask_log = st.ask_log :=
  ⟨rfl, rfl, rfl, rfl, rfl, rfl, rfl, rfl, rfl⟩

/-- C10: a truthy `activate_preset` flag without an explicit `preset` key
triggers no preset-activation side effect (the state is unchanged), and
when `preset_overrides` is present the resolver falls back to the backend's
currently active preset name. -/
theorem extract_no_activation_without_explicit_preset
    (st : BackendState) (overrides ro : Dict) (av : Value)
    (hro : dict_get overrides "request_overrides" = some (Value.dict ro))
    (hp : dict_contains ro "preset" = false)
    (hav : dict_get ro "activate_preset" = some av)
    (ht : truthy av = true) :
    (extract_preset_configuration_from_overrides st overrides).1 = st ∧
    (dict_contains ro "preset_overrides" = true →
      (extract_preset_configuration_from_overrides st overrides).2.preset_name =
        st.active_preset_name) := by
  constructor
  · rw [extract_state_eq]
    have hra : resolver_activates overrides = false := by
      unfold resolver_activates
      rw [hro]
      simp [hp]
    simp [hra]
  · intro hpo
    unfold extract_preset_configuration_from_overrides
    rw [hro]
    simp [hp, hpo]
    split <;> simp

theorem extract_no_activation_without_explicit_preset_witness :
    (extract_preset_configuration_from_overrides
      { st0 with active_preset_name := Value.str "cur" }
      [("request_overrides", Value.dict
        [("activate_preset", Value.bool true), ("preset_overrides", Value.dict [])])]).1 =
      { st0 with active_preset_name := Value.str "cur" } ∧
    (extract_preset_configuration_from_overrides
      { st0 with active_preset_name := Value.str "cur" }
      [("request_overrides", Value.dict
        [("activate_preset", Value.bool true), ("preset_overrides", Value.dict [])])]).2.preset_name =
      ({ st0 with active_preset_name := Value.str "cur" } : BackendState).active_preset_name :=
  ⟨(extract_no_activation_without_explicit_preset
      { st0 with active_preset_name := Value.str "cur" }
      [("request_overrides", Value.dict
        [("activate_preset", Value.bool true), ("preset_overrides", Value.dict [])])]
      [("activate_preset", Value.bool true), ("preset_overrides", Value.dict [])]
      (Value.bool true) rfl rfl rfl rfl).1,
    (extract_no_activation_without_explicit_preset
      { st0 with active_preset_name := Value.str "cur" }
      [("request_overrides", Value.dict
        [("activate_preset", Value.bool true), ("preset_overrides", Value.dict [])])]
      [("activate_preset", Value.bool true), ("preset_overrides", Value.dict [])]
      (Value.bool true) rfl rfl rfl rfl).2 rfl⟩

/-- C2: a failure of the template-variable fetch or of template setup
(which covers template compilation, preset resolution and override-LLM
construction) aborts `run_template` immediately: the failing stage's
result is returned verbatim, no ask dispatch is recorded, and the result
does not depend on the caller overrides that would only be merged later. -/
theorem run_template_short_circuits
    (impl : BackendImpl) (st : BackendState) (template_name : String)
    (template_vars overrides : Option Dict) :
    (∀ payload user_message,
      impl.get_template_variables_substitutions template_name =
        TvsResult.err payload user_message →
      run_template impl st template_name template_vars overrides =
        (st, (false, payload, user_message)) ∧
      ∀ overrides2, run_template impl st template_name template_vars overrides2 =
        run_template impl st template_name template_vars overrides) ∧
    (∀ t v subs um st1 payload user_message,
      impl.get_template_variables_substitutions template_name = TvsResult.ok t v subs um →
      run_template_setup impl st template_name
          (some (merge_dicts subs (template_vars.getD []))) =
        (st1, SetupResult.err payload user_message) →
      run_template impl st template_name template_vars overrides =
        (st1, (false, payload, user_message)) ∧
      st1.ask_log = st.ask_log ∧
      ∀ overrides2, run_template impl st template_name template_vars overrides2 =
        run_template impl st template_name template_vars overrides) := by
  constructor
  · intro payload user_message h
    constructor
    · simp [run_template, h]
    · intro overrides2
      simp [run_template, h]
  · intro t v subs um st1 payload user_message h1 h2
    refine ⟨?_, ?_, ?_⟩
    · simp [run_template, h1, h2]
    · have h3 := run_template_setup_ask_log impl st template_name
        (some (merge_dicts subs (template_vars.getD [])))
      rw [h2] at h3
      exact h3
    · intro overrides2
      simp [run_template, h1, h2]

theorem run_template_short_circuits_witness :
    run_template implFail st0 "greet" Option.none Option.none =
      (st0, (false, Payload.value (Value.str "boom"), "missing template")) :=
  ((run_template_short_circuits implFail st0 "greet" Option.none Option.none).1
    (Payload.value (Value.str "boom")) "missing template" rfl).1

/-- C8: `run_template_compiled` dispatches to the non-streaming ask
capability with the final overrides spread as request parameters and
returns its result unchanged, and it is the stage whose result the
successful pipeline returns as the overall result. -/
theorem run_template_compiled_dispatches_ask
    (impl : BackendImpl) (st : BackendState) (message : String) (ov : Dict)
    (template_name : String) (template_vars overrides : Option Dict) :
    (run_template_compiled impl st message (some ov) =
      impl.ask { st with ask_log := st.ask_log ++ [(message, ov)] } message ov) ∧
    (run_template_compiled impl st message Option.none =
      impl.ask { st with ask_log := st.ask_log ++ [(message, [])] } message []) ∧
    (∀ t v subs um st1 cmsg template_overrides um2,
      impl.get_template_variables_substitutions template_name = TvsResult.ok t v subs um →
      run_template_setup impl st template_name
          (some (merge_dicts subs (template_vars.getD []))) =
        (st1, SetupResult.ok cmsg template_overrides um2) →
      run_template impl st template_name template_vars overrides =
        run_template_compiled impl st1 cmsg
          (some (merge_dicts template_overrides (overrides.getD [])))) := by
  refine ⟨rfl, rfl, ?_⟩
  intro t v subs um st1 cmsg template_overrides um2 h1 h2
  simp [run_template, h1, h2]

theorem run_template_compiled_dispatches_ask_witness :
    run_template implOk st0 "greet" Option.none Option.none =
      run_template_compiled implOk st0 "Hello, Ada" (some (merge_dicts [] [])) :=
  (run_template_compiled_dispatches_ask implOk st0 "Hello, Ada" [] "greet"
    Option.none Option.none).2.2
    Value.none Value.none [] "template loaded" st0 "Hello, Ada" []
    "Set up of template run complete: greet" rfl rfl

/-- C4: `merge_dicts` keeps every key of both mappings, the right-hand
(caller) mapping's value wins on every key collision, and the spec's
concrete example evaluates as stated. -/
theorem merge_dicts_caller_wins (d1 d2 : Dict) (k : String) :
    (dict_contains (merge_dicts d1 d2) k = (dict_contains d1 k || dict_contains d2 k)) ∧
    (dict_contains d2 k = true → dict_get (merge_dicts d1 d2) k = dict_get d2 k) ∧
    (dict_contains d2 k = false → dict_get (merge_dicts d1 d2) k = dict_get d1 k) ∧
    merge_dicts [("a", Value.nat 1), ("b", Value.nat 2)] [("b", Value.nat 3), ("c", Value.nat 4)] =
      [("a", Value.nat 1), ("b", Value.nat 3), ("c", Value.nat 4)] := by
  refine ⟨?_, ?_, ?_, by rfl⟩
  · cases h1 : dict_get d1 k <;> cases h2 : dict_get d2 k <;>
      simp [dict_contains, dict_get_merge_dicts, h1, h2]
  · intro h2c
    obtain ⟨v2, h2⟩ : ∃ v, dict_get d2 k = some v := by
      cases hx : dict_get d2 k
      · simp [dict_contains, hx] at h2c
      · exact ⟨_, rfl⟩
    cases h1 : dict_get d1 k <;> simp [dict_get_merge_dicts, h1, h2]
  · intro h2c
    have h2 : dict_get d2 k = Option.none := by
      cases hx : dict_get d2 k
      · rfl
      · simp [dict_contains, hx] at h2c
    cases h1 : dict_get d1 k <;> simp [dict_get_merge_dicts, h1, h2]

theorem merge_dicts_caller_wins_witness :
    dict_get (merge_dicts [("a", Value.nat 1), ("b", Value.nat 2)]
        [("b", Value.nat 3), ("c", Value.nat 4)]) "b" =
      dict_get [("b", Value.nat 3), ("c", Value.nat 4)] "b" :=
  (merge_dicts_caller_wins [("a", Value.nat 1), ("b", Value.nat 2)]
    [("b", Value.nat 3), ("c", Value.nat 4)] "b").2.1 rfl

end LWE
